import Mathlib

/-!
Verification of the ad-performance-analyzer server handlers.

The TypeScript handlers under `src/server/src/handlers` are shallowly
embedded as pure Lean functions over an explicit in-memory database state.

Conventions of the embedding:
* SQL tables are lists of records; `serial` primary keys are modelled by a
  `next…Id` counter carried in the database state, and `insert` appends.
* `numeric` / `real` columns are modelled as `ℚ` (exact decimal semantics).
* JavaScript `Date` instants are modelled as `Int` milliseconds since the
  Unix epoch; a Postgres `date` column value is the UTC calendar day of an
  instant, modelled as an `Int` day number (`dayOf`).  `toISOString`'s
  `YYYY-MM-DD` prefix of an instant corresponds to `dayOf` because string
  comparison of zero-padded ISO dates agrees with the order of day numbers.
* Handlers that `throw` are embedded as functions returning the (possibly
  updated) database state together with an `Except` result, so that "no
  side effects on failure" is expressible.
-/

/-- Milliseconds in one UTC day, as used by JavaScript date arithmetic. -/
def msPerDay : Int := 86400000

/-- UTC calendar day (days since 1970-01-01) of an instant in milliseconds,
the day that `Date.prototype.toISOString` renders. -/
def dayOf (t : Int) : Int := t.fdiv msPerDay

/-- Days since 1970-01-01 of the civil date `y-m-d` (proleptic Gregorian),
used to write concrete calendar dates in examples. -/
def civilToDay (y : Int) (m d : Nat) : Int :=
  let y' : Int := if m ≤ 2 then y - 1 else y
  let era : Int := y'.fdiv 400
  let yoe : Int := y' - era * 400
  let mp : Nat := (m + 9) % 12
  let doy : Int := ((153 * mp + 2) / 5 : Nat) + (d : Int) - 1
  let doe : Int := yoe * 365 + yoe.fdiv 4 - yoe.fdiv 100 + doy
  era * 146097 + doe - 719468

/-- Row of the `users` table (fields relevant to the handlers). -/
structure User where
  id : Int
  email : String
  name : String
  deriving DecidableEq, Repr

/-- Row of the `ad_account_connections` table. -/
structure AdConnection where
  id : Int
  user_id : Int
  platform : String
  account_id : String
  account_name : String
  access_token : String
  refresh_token : Option String
  status : String
  last_sync_at : Option Int
  created_at : Int
  updated_at : Int
  deriving DecidableEq, Repr

/-- Row of the `campaigns` table. -/
structure Campaign where
  id : Int
  connection_id : Int
  platform_campaign_id : String
  name : String
  objective : String
  status : String
  daily_budget : Option ℚ
  lifetime_budget : Option ℚ
  start_date : Option Int
  end_date : Option Int
  created_at : Int
  updated_at : Int
  deriving DecidableEq, Repr

/-- Row of the `campaign_metrics` table (`date` is a calendar day number). -/
structure MetricRow where
  id : Int
  campaign_id : Int
  date : Int
  impressions : Int
  clicks : Int
  spend : ℚ
  conversions : Int
  conversion_value : ℚ
  ctr : ℚ
  cpc : ℚ
  cpm : ℚ
  roas : ℚ
  frequency : ℚ
  reach : Int
  video_views : Int
  engagement_rate : ℚ
  created_at : Int
  deriving DecidableEq, Repr

/-- Row of the `ai_insights` table (free-form JSON `metadata` is omitted:
no handler reads it back and no claim mentions it). -/
structure AiInsight where
  id : Int
  user_id : Int
  campaign_id : Option Int
  connection_id : Option Int
  insight_type : String
  title : String
  content : String
  recommendations : String
  confidence_score : ℚ
  platform : String
  objective : Option String
  created_at : Int
  deriving DecidableEq, Repr

/-- The relational store: one list per table plus the serial-id counters. -/
structure DB where
  users : List User
  connections : List AdConnection
  campaigns : List Campaign
  metrics : List MetricRow
  insights : List AiInsight
  nextCampaignId : Int
  nextMetricId : Int
  nextInsightId : Int
  deriving DecidableEq, Repr

/-! ## getCampaignMetrics (src/server/src/handlers/get_campaign_metrics.ts) -/

/-- Input of `getCampaignMetrics` (`start_date`/`end_date` are instants). -/
structure GetCampaignMetricsInput where
  user_id : Int
  campaign_ids : Option (List Int)
  platform : Option String
  objective : Option String
  start_date : Int
  end_date : Int
  deriving DecidableEq, Repr

/-- The inner join of `campaign_metrics` with `campaigns` (on
`metrics.campaign_id = campaigns.id`) and `ad_account_connections`
(on `campaigns.connection_id = connections.id`). -/
def metricsJoin (db : DB) : List (MetricRow × Campaign × AdConnection) :=
  db.metrics.flatMap fun m =>
    (db.campaigns.filter fun c => c.id = m.campaign_id).flatMap fun c =>
      (db.connections.filter fun cn => cn.id = c.connection_id).map fun cn =>
        (m, c, cn)

/-- The conjunction of `where` conditions built by `getCampaignMetrics`:
owner check, inclusive calendar-date range (input instants truncated to
their UTC day as `toISOString().split` does), and the optional filters
(`campaign_ids` only when present and non-empty). -/
def metricsWhere (input : GetCampaignMetricsInput)
    (t : MetricRow × Campaign × AdConnection) : Bool :=
  decide (t.2.2.user_id = input.user_id)
    && decide (dayOf input.start_date ≤ t.1.date)
    && decide (t.1.date ≤ dayOf input.end_date)
    && (match input.campaign_ids with
        | some ids => if ids.isEmpty then true else decide (t.1.campaign_id ∈ ids)
        | none => true)
    && (match input.platform with
        | some p => decide (t.2.2.platform = p)
        | none => true)
    && (match input.objective with
        | some o => decide (t.2.1.objective = o)
        | none => true)

/-- `getCampaignMetrics`: join, apply all conditions, return the metric
rows (the numeric re-parsing in the source is the identity here). -/
def getCampaignMetrics (db : DB) (input : GetCampaignMetricsInput) :
    List MetricRow :=
  ((metricsJoin db).filter (metricsWhere input)).map (·.1)

/-- Membership characterization of `getCampaignMetrics`: a metric row is
returned iff it joins to a campaign and connection of the requesting user,
its calendar date lies in the inclusive range, and every supplied optional
filter matches (an omitted filter, or an empty `campaign_ids` list,
matches any value). -/
lemma mem_getCampaignMetrics (db : DB) (input : GetCampaignMetricsInput) (m : MetricRow) :
    m ∈ getCampaignMetrics db input ↔
      ∃ c ∈ db.campaigns, ∃ cn ∈ db.connections,
        m ∈ db.metrics ∧ c.id = m.campaign_id ∧ cn.id = c.connection_id ∧
        cn.user_id = input.user_id ∧
        dayOf input.start_date ≤ m.date ∧ m.date ≤ dayOf input.end_date ∧
        (∀ ids, input.campaign_ids = some ids → ids ≠ [] → m.campaign_id ∈ ids) ∧
        (∀ p, input.platform = some p → cn.platform = p) ∧
        (∀ o, input.objective = some o → c.objective = o) := by
  unfold getCampaignMetrics metricsJoin metricsWhere
  simp only [List.mem_map, List.mem_filter, List.mem_flatMap, Bool.and_eq_true,
    decide_eq_true_eq]
  constructor
  · rintro ⟨t, ⟨⟨a, ha, c, ⟨hc, hcid⟩, cn, ⟨hcn, hcnid⟩, rfl⟩, conds⟩, rfl⟩
    obtain ⟨⟨⟨⟨⟨hu, hs⟩, he⟩, hcids⟩, hp⟩, ho⟩ := conds
    refine ⟨c, hc, cn, hcn, ha, hcid, hcnid, hu, hs, he, ?_, ?_, ?_⟩
    · intro ids hids hne
      rw [hids] at hcids
      simpa [List.isEmpty_iff, hne] using hcids
    · intro p hp'
      rw [hp'] at hp
      simpa using hp
    · intro o ho'
      rw [ho'] at ho
      simpa using ho
  · rintro ⟨c, hc, cn, hcn, hm, hcid, hcnid, hu, hs, he, hcids, hp, ho⟩
    refine ⟨(m, c, cn), ⟨⟨m, hm, c, ⟨hc, hcid⟩, cn, ⟨hcn, hcnid⟩, rfl⟩, ?_⟩, rfl⟩
    refine ⟨⟨⟨⟨⟨hu, hs⟩, he⟩, ?_⟩, ?_⟩, ?_⟩
    · cases hci : input.campaign_ids with
      | none => simp
      | some ids =>
        by_cases hne : ids = []
        · simp [hne]
        · simpa [List.isEmpty_iff, hne] using hcids ids hci hne
    · cases hpi : input.platform with
      | none => simp
      | some p => simpa using hp p hpi
    · cases hoi : input.objective with
      | none => simp
      | some o => simpa using ho o hoi

/-- A connection used by the concrete date-range example. -/
def exConn : AdConnection :=
  { id := 1, user_id := 7, platform := "meta_ads", account_id := "a", account_name := "A"
    access_token := "t", refresh_token := none, status := "connected"
    last_sync_at := none, created_at := 0, updated_at := 0 }

/-- A campaign used by the concrete date-range example. -/
def exCampaign : Campaign :=
  { id := 2, connection_id := 1, platform_campaign_id := "pc", name := "N"
    objective := "conversion", status := "active", daily_budget := none
    lifetime_budget := none, start_date := none, end_date := none
    created_at := 0, updated_at := 0 }

/-- A metric row with the given id and date, used by concrete examples. -/
def exMetric (i : Int) (d : Int) : MetricRow :=
  { id := i, campaign_id := 2, date := d, impressions := 100, clicks := 10
    spend := 5, conversions := 1, conversion_value := 20, ctr := 1, cpc := 1
    cpm := 1, roas := 4, frequency := 1, reach := 50, video_views := 5
    engagement_rate := 1, created_at := 0 }

/-- The database of the concrete date-range example: one user's connection
and campaign with rows dated 2024-01-10, 2024-01-20 and 2024-02-10. -/
def exDb : DB :=
  { users := [], connections := [exConn], campaigns := [exCampaign]
    metrics := [exMetric 10 (civilToDay 2024 1 10), exMetric 11 (civilToDay 2024 1 20),
                exMetric 12 (civilToDay 2024 2 10)]
    insights := [], nextCampaignId := 3, nextMetricId := 13, nextInsightId := 1 }

/-- The query of the concrete date-range example: range 2024-01-15 to
2024-01-31, given as instants with nonzero times of day. -/
def exInput : GetCampaignMetricsInput :=
  { user_id := 7, campaign_ids := none, platform := none, objective := none
    start_date := civilToDay 2024 1 15 * msPerDay + 43200000
    end_date := civilToDay 2024 1 31 * msPerDay + 999 }

/-- Claim C4: the `getCampaignMetrics` date-range filter is inclusive at
both ends and excludes rows strictly outside the range; it compares
calendar dates, not instants (changing only the time of day of the input
bounds changes nothing); and on rows dated 2024-01-10, 2024-01-20 and
2024-02-10 with range 2024-01-15 to 2024-01-31 exactly the 2024-01-20 row
is returned. -/
theorem getCampaignMetrics_date_range (db : DB) (input : GetCampaignMetricsInput)
    (m : MetricRow)
    (eligible : ∃ c ∈ db.campaigns, ∃ cn ∈ db.connections,
      m ∈ db.metrics ∧ c.id = m.campaign_id ∧ cn.id = c.connection_id ∧
      cn.user_id = input.user_id ∧
      (∀ ids, input.campaign_ids = some ids → ids ≠ [] → m.campaign_id ∈ ids) ∧
      (∀ p, input.platform = some p → cn.platform = p) ∧
      (∀ o, input.objective = some o → c.objective = o)) :
    (m ∈ getCampaignMetrics db input ↔
      dayOf input.start_date ≤ m.date ∧ m.date ≤ dayOf input.end_date) ∧
    (∀ s' e', dayOf s' = dayOf input.start_date → dayOf e' = dayOf input.end_date →
      getCampaignMetrics db { input with start_date := s', end_date := e' }
        = getCampaignMetrics db input) ∧
    getCampaignMetrics exDb exInput = [exMetric 11 (civilToDay 2024 1 20)] := by
  refine ⟨?_, ?_, by decide⟩
  · rw [mem_getCampaignMetrics]
    constructor
    · rintro ⟨c, hc, cn, hcn, hm, hcid, hcnid, hu, hs, he, hcids, hp, ho⟩
      exact ⟨hs, he⟩
    · rintro ⟨hs, he⟩
      obtain ⟨c, hc, cn, hcn, hm, hcid, hcnid, hu, hcids, hp, ho⟩ := eligible
      exact ⟨c, hc, cn, hcn, hm, hcid, hcnid, hu, hs, he, hcids, hp, ho⟩
  · intro s' e' hs he
    unfold getCampaignMetrics
    rw [List.filter_congr]
    intro t _
    simp [metricsWhere, hs, he]

/-- Witness for C4: the 2024-01-20 row of the example database is in range
and returned. -/
theorem getCampaignMetrics_date_range_witness :
    exMetric 11 (civilToDay 2024 1 20) ∈ getCampaignMetrics exDb exInput ↔
      dayOf exInput.start_date ≤ (exMetric 11 (civilToDay 2024 1 20)).date ∧
      (exMetric 11 (civilToDay 2024 1 20)).date ≤ dayOf exInput.end_date :=
  (getCampaignMetrics_date_range exDb exInput (exMetric 11 (civilToDay 2024 1 20))
    ⟨exCampaign, by decide, exConn, by decide, by decide, by decide, by decide,
      by decide, by simp [exInput], by simp [exInput], by simp [exInput]⟩).1

/-- Claim C5: `getCampaignMetrics` returns exactly the metric rows owned
(through campaign and connection) by the requesting user, dated inside the
range, and matching every supplied optional filter conjunctively; and with
primary-key-unique campaign and connection ids, supplying both the
platform and the objective filter returns exactly the intersection of the
two single-filter results. -/
theorem getCampaignMetrics_filter_spec :
    (∀ (db : DB) (input : GetCampaignMetricsInput) (m : MetricRow),
      m ∈ getCampaignMetrics db input ↔
        ∃ c ∈ db.campaigns, ∃ cn ∈ db.connections,
          m ∈ db.metrics ∧ c.id = m.campaign_id ∧ cn.id = c.connection_id ∧
          cn.user_id = input.user_id ∧
          dayOf input.start_date ≤ m.date ∧ m.date ≤ dayOf input.end_date ∧
          (∀ ids, input.campaign_ids = some ids → ids ≠ [] → m.campaign_id ∈ ids) ∧
          (∀ p, input.platform = some p → cn.platform = p) ∧
          (∀ o, input.objective = some o → c.objective = o)) ∧
    (∀ (db : DB) (base : GetCampaignMetricsInput) (p o : String) (m : MetricRow),
      (db.campaigns.map (·.id)).Nodup → (db.connections.map (·.id)).Nodup →
      (m ∈ getCampaignMetrics db { base with platform := some p, objective := some o } ↔
        m ∈ getCampaignMetrics db { base with platform := some p, objective := none } ∧
        m ∈ getCampaignMetrics db { base with platform := none, objective := some o })) := by
  refine ⟨mem_getCampaignMetrics, ?_⟩
  intro db base p o m hnc hncn
  simp only [mem_getCampaignMetrics]
  constructor
  · rintro ⟨c, hc, cn, hcn, hm, hcid, hcnid, hu, hs, he, hcids, hp, ho⟩
    exact ⟨⟨c, hc, cn, hcn, hm, hcid, hcnid, hu, hs, he, hcids, hp, by simp⟩,
           ⟨c, hc, cn, hcn, hm, hcid, hcnid, hu, hs, he, hcids, by simp, ho⟩⟩
  · rintro ⟨⟨c1, hc1, cn1, hcn1, hm, hcid1, hcnid1, hu1, hs, he, hcids, hp, -⟩,
            ⟨c2, hc2, cn2, hcn2, -, hcid2, hcnid2, -, -, -, -, -, ho⟩⟩
    have hceq : c1 = c2 := by
      have := List.inj_on_of_nodup_map hnc hc1 hc2
      exact this (by rw [hcid1, hcid2])
    have hcneq : cn1 = cn2 := by
      have := List.inj_on_of_nodup_map hncn hcn1 hcn2
      exact this (by rw [hcnid1, hcnid2, hceq])
    subst hceq; subst hcneq
    exact ⟨c1, hc1, cn1, hcn1, hm, hcid1, hcnid1, hu1, hs, he, hcids, hp, ho⟩

/-- Witness for C5: the intersection property applied to the example
database, whose id columns are duplicate-free. -/
theorem getCampaignMetrics_filter_spec_witness :
    exMetric 11 (civilToDay 2024 1 20) ∈
        getCampaignMetrics exDb
          { exInput with platform := some "meta_ads", objective := some "conversion" } ↔
      exMetric 11 (civilToDay 2024 1 20) ∈
          getCampaignMetrics exDb
            { exInput with platform := some "meta_ads", objective := none } ∧
      exMetric 11 (civilToDay 2024 1 20) ∈
          getCampaignMetrics exDb
            { exInput with platform := none, objective := some "conversion" } :=
  getCampaignMetrics_filter_spec.2 exDb exInput "meta_ads" "conversion"
    (exMetric 11 (civilToDay 2024 1 20)) (by decide) (by decide)

/-! ## syncCampaignData (src/server/src/handlers/sync_campaign_data.ts) -/

/-- Input of `syncCampaignData` (an absent `force_sync` behaves as false). -/
structure SyncCampaignDataInput where
  connection_id : Int
  force_sync : Bool
  deriving DecidableEq, Repr

/-- The per-day numeric values produced by the mock metrics generator
(`Math.random()` draws, abstracted as an oracle in `SyncEnv`). -/
structure MockVals where
  impressions : Int
  clicks : Int
  spend : ℚ
  conversions : Int
  conversion_value : ℚ
  ctr : ℚ
  cpc : ℚ
  cpm : ℚ
  roas : ℚ
  frequency : ℚ
  reach : Int
  video_views : Int
  engagement_rate : ℚ
  deriving DecidableEq, Repr

/-- Ambient effects of one `syncCampaignData` call: the current instant
(`new Date()`) and the random numeric values, indexed by the campaign's
platform id and the day offset. -/
structure SyncEnv where
  now : Int
  vals : String → Nat → MockVals

/-- A campaign record produced by the mock generator. -/
structure MockCampaign where
  platform_campaign_id : String
  name : String
  objective : String
  status : String
  daily_budget : Option ℚ
  lifetime_budget : Option ℚ
  start_date : Int
  end_date : Option Int
  deriving DecidableEq, Repr

/-- A metrics record produced by the mock generator. -/
structure MockMetric where
  platform_campaign_id : String
  date : Int
  v : MockVals
  deriving DecidableEq, Repr

/-- `generateMockCampaigns`: two fixed campaigns derived from the
connection's platform (the `fromDate` argument is unused, as in the
source). -/
def generateMockCampaigns (conn : AdConnection) (fromDate : Int) : List MockCampaign :=
  [ { platform_campaign_id := conn.platform ++ "_campaign_1"
      name := "Test Campaign 1 - " ++ conn.platform
      objective := "conversion", status := "active"
      daily_budget := some 100, lifetime_budget := none
      start_date := civilToDay 2024 1 1, end_date := none },
    { platform_campaign_id := conn.platform ++ "_campaign_2"
      name := "Test Campaign 2 - " ++ conn.platform
      objective := "traffic", status := "paused"
      daily_budget := none, lifetime_budget := some 5000
      start_date := civilToDay 2024 1 15, end_date := some (civilToDay 2024 2 15) } ]

/-- `generateMockMetrics`: for each campaign, one record per day over the
last 7 days whose instant is not before `fromDate`; the stored date is the
calendar day of that instant. -/
def generateMockMetrics (env : SyncEnv) (campaigns : List MockCampaign)
    (fromDate : Int) : List MockMetric :=
  campaigns.flatMap fun c =>
    (List.range 7).filterMap fun (i : Nat) =>
      if fromDate ≤ env.now - (i : Int) * msPerDay then
        some { platform_campaign_id := c.platform_campaign_id
               date := dayOf (env.now - (i : Int) * msPerDay)
               v := env.vals c.platform_campaign_id i }
      else none

/-- State threaded through the campaign upsert loop. -/
structure CampaignLoopState where
  campaigns : List Campaign
  nextId : Int
  synced : Nat
  deriving DecidableEq, Repr

/-- One iteration of the campaign upsert loop: insert the mock campaign
when no row has its `(connection_id, platform_campaign_id)` key, update
the mutable fields of the first matching row otherwise. -/
def campaignUpsertStep (env : SyncEnv) (connId : Int)
    (st : CampaignLoopState) (cd : MockCampaign) : CampaignLoopState :=
  match st.campaigns.filter (fun c =>
      decide (c.connection_id = connId)
        && decide (c.platform_campaign_id = cd.platform_campaign_id)) with
  | [] =>
      { campaigns := st.campaigns ++
          [{ id := st.nextId, connection_id := connId
             platform_campaign_id := cd.platform_campaign_id
             name := cd.name, objective := cd.objective, status := cd.status
             daily_budget := cd.daily_budget, lifetime_budget := cd.lifetime_budget
             start_date := some cd.start_date, end_date := cd.end_date
             created_at := env.now, updated_at := env.now }]
        nextId := st.nextId + 1
        synced := st.synced + 1 }
  | e :: _ =>
      { st with campaigns := st.campaigns.map fun c =>
          if c.id = e.id then
            { c with name := cd.name, status := cd.status
                     daily_budget := cd.daily_budget
                     lifetime_budget := cd.lifetime_budget
                     end_date := cd.end_date, updated_at := env.now }
          else c }

/-- Lookup in a JavaScript `Map` built from a key-value list: the last
entry for a key wins. -/
def lookupLast (entries : List (String × Int)) (k : String) : Option Int :=
  (entries.reverse.find? fun e => decide (e.1 = k)).map (·.2)

/-- State threaded through the metrics upsert loop. -/
structure MetricLoopState where
  metrics : List MetricRow
  nextId : Int
  synced : Nat
  deriving DecidableEq, Repr

/-- One iteration of the metrics upsert loop: skip when the campaign id
map has no entry, insert when no row has the `(campaign_id, date)` key,
update the numeric fields of the first matching row otherwise. -/
def metricUpsertStep (env : SyncEnv) (entries : List (String × Int))
    (st : MetricLoopState) (md : MockMetric) : MetricLoopState :=
  match lookupLast entries md.platform_campaign_id with
  | none => st
  | some campId =>
    match st.metrics.filter (fun r =>
        decide (r.campaign_id = campId) && decide (r.date = md.date)) with
    | [] =>
        { metrics := st.metrics ++
            [{ id := st.nextId, campaign_id := campId, date := md.date
               impressions := md.v.impressions, clicks := md.v.clicks
               spend := md.v.spend, conversions := md.v.conversions
               conversion_value := md.v.conversion_value, ctr := md.v.ctr
               cpc := md.v.cpc, cpm := md.v.cpm, roas := md.v.roas
               frequency := md.v.frequency, reach := md.v.reach
               video_views := md.v.video_views
               engagement_rate := md.v.engagement_rate
               created_at := env.now }]
          nextId := st.nextId + 1
          synced := st.synced + 1 }
    | e :: _ =>
        { st with metrics := st.metrics.map fun r =>
            if r.id = e.id then
              { r with impressions := md.v.impressions, clicks := md.v.clicks
                       spend := md.v.spend, conversions := md.v.conversions
                       conversion_value := md.v.conversion_value, ctr := md.v.ctr
                       cpc := md.v.cpc, cpm := md.v.cpm, roas := md.v.roas
                       frequency := md.v.frequency, reach := md.v.reach
                       video_views := md.v.video_views
                       engagement_rate := md.v.engagement_rate }
            else r }

/-- Result record of a successful sync. -/
structure SyncResult where
  success : Bool
  campaigns_synced : Nat
  metrics_synced : Nat
  deriving DecidableEq, Repr

/-- The two failure conditions `syncCampaignData` can raise before any
write: unknown connection id, and a connection not in "connected" state. -/
inductive SyncErr where
  | notFound
  | stateConflict
  deriving DecidableEq, Repr

/-- The start of the sync window: the last 30 days by default, or since
`last_sync_at` when present, unless the force flag is set. -/
def syncWindow (env : SyncEnv) (conn : AdConnection) (force : Bool) : Int :=
  match conn.last_sync_at with
  | some t => if force then env.now - 30 * msPerDay else t
  | none => env.now - 30 * msPerDay

/-- Success path of `syncCampaignData` after the two validations:
determine the sync window, generate mock campaigns and metrics, upsert
both, stamp the connection, and report the counts of inserted rows. -/
def syncBody (env : SyncEnv) (db : DB) (input : SyncCampaignDataInput)
    (conn : AdConnection) : DB × Except SyncErr SyncResult :=
  let syncFromDate := syncWindow env conn input.force_sync
  let mockCampaigns := generateMockCampaigns conn syncFromDate
  let mockMetrics := generateMockMetrics env mockCampaigns syncFromDate
  let cst := mockCampaigns.foldl (campaignUpsertStep env input.connection_id)
    ⟨db.campaigns, db.nextCampaignId, 0⟩
  let entries := (cst.campaigns.filter fun c =>
      decide (c.connection_id = input.connection_id)).map fun c =>
    (c.platform_campaign_id, c.id)
  let mst := mockMetrics.foldl (metricUpsertStep env entries)
    ⟨db.metrics, db.nextMetricId, 0⟩
  let conns := db.connections.map fun c =>
    if c.id = input.connection_id then
      { c with last_sync_at := some env.now, updated_at := env.now }
    else c
  ({ db with connections := conns, campaigns := cst.campaigns
             metrics := mst.metrics, nextCampaignId := cst.nextId
             nextMetricId := mst.nextId },
   .ok { success := true, campaigns_synced := cst.synced
         metrics_synced := mst.synced })

/-- `syncCampaignData`: fail with not-found when no connection has the
requested id, with a state conflict when the connection is not in
"connected" status, and run the sync body otherwise. -/
def syncCampaignData (env : SyncEnv) (db : DB) (input : SyncCampaignDataInput) :
    DB × Except SyncErr SyncResult :=
  match db.connections.filter (fun c => decide (c.id = input.connection_id)) with
  | [] => (db, .error .notFound)
  | conn :: _ =>
    if conn.status ≠ "connected" then (db, .error .stateConflict)
    else syncBody env db input conn

/-- Claim C7: `syncCampaignData` fails with a not-found condition when no
connection has the given id, fails with a state-conflict condition
(distinct from not-found) when the first matching connection is not in
"connected" status, and in both cases returns the store entirely
unchanged, having performed no campaign or metrics writes. -/
theorem syncCampaignData_precondition_errors (env : SyncEnv) (db : DB)
    (input : SyncCampaignDataInput) :
    (db.connections.filter (fun c => decide (c.id = input.connection_id)) = [] →
      syncCampaignData env db input = (db, .error .notFound)) ∧
    (∀ conn rest,
      db.connections.filter (fun c => decide (c.id = input.connection_id))
          = conn :: rest →
      conn.status ≠ "connected" →
      syncCampaignData env db input = (db, .error .stateConflict)) ∧
    SyncErr.notFound ≠ SyncErr.stateConflict := by
  refine ⟨?_, ?_, by decide⟩
  · intro h
    unfold syncCampaignData
    rw [h]
  · intro conn rest h hst
    unfold syncCampaignData
    rw [h]
    dsimp only
    rw [if_pos hst]

/-- Fixed mock values for concrete sync examples. -/
def exVals : MockVals :=
  { impressions := 5000, clicks := 250, spend := 120, conversions := 10
    conversion_value := 500, ctr := 3, cpc := 1, cpm := 12, roas := 4
    frequency := 2, reach := 2500, video_views := 800, engagement_rate := 5 }

/-- A concrete sync environment: noon UTC on 2024-03-01, constant values. -/
def exSyncEnv : SyncEnv :=
  { now := civilToDay 2024 3 1 * msPerDay + 43200000, vals := fun _ _ => exVals }

/-- A store whose only connection (id 5) is disconnected. -/
def exDbDisc : DB :=
  { exDb with connections := [{ exConn with id := 5, status := "disconnected" }] }

/-- Witness for C7: an unknown id yields not-found on the example store,
and syncing the disconnected connection yields a state conflict; both
leave the store untouched. -/
theorem syncCampaignData_precondition_errors_witness :
    syncCampaignData exSyncEnv exDb ⟨99, true⟩ = (exDb, .error .notFound) ∧
    syncCampaignData exSyncEnv exDbDisc ⟨5, true⟩ = (exDbDisc, .error .stateConflict) :=
  ⟨(syncCampaignData_precondition_errors exSyncEnv exDb ⟨99, true⟩).1 (by decide),
   (syncCampaignData_precondition_errors exSyncEnv exDbDisc ⟨5, true⟩).2.1
     { exConn with id := 5, status := "disconnected" } [] (by decide) (by decide)⟩

/-- Key fields of a campaign row that every upsert update preserves. -/
def campKey (c : Campaign) : Int × Int × String :=
  (c.id, c.connection_id, c.platform_campaign_id)

/-- Key fields of a metrics row that every upsert update preserves. -/
def rowKey (r : MetricRow) : Int × Int × Int :=
  (r.id, r.campaign_id, r.date)

/-- Some campaign row in the list carries the given upsert natural key. -/
def campMatches (connId : Int) (pcid : String) (l : List Campaign) : Prop :=
  ∃ c ∈ l, c.connection_id = connId ∧ c.platform_campaign_id = pcid

/-- Some metrics row in the list carries the given upsert natural key. -/
def rowMatches (campId dateV : Int) (l : List MetricRow) : Prop :=
  ∃ r ∈ l, r.campaign_id = campId ∧ r.date = dateV

lemma campMatches_of_map_eq {l₁ l₂ : List Campaign} (h : l₁.map campKey = l₂.map campKey)
    {connId : Int} {pcid : String} (hm : campMatches connId pcid l₂) :
    campMatches connId pcid l₁ := by
  obtain ⟨c, hc, h1, h2⟩ := hm
  have : campKey c ∈ l₁.map campKey := by
    rw [h]; exact List.mem_map_of_mem _ hc
  obtain ⟨c', hc', hk⟩ := List.mem_map.mp this
  obtain ⟨-, e2, e3⟩ : c'.id = c.id ∧ c'.connection_id = c.connection_id ∧
      c'.platform_campaign_id = c.platform_campaign_id := by
    unfold campKey at hk
    exact ⟨congrArg (·.1) hk, congrArg (·.2.1) hk, congrArg (·.2.2) hk⟩
  exact ⟨c', hc', by rw [e2, h1], by rw [e3, h2]⟩

lemma campMatches_step_mono (env : SyncEnv) (connId : Int) (st : CampaignLoopState)
    (cd : MockCampaign) {pcid : String}
    (h : campMatches connId pcid st.campaigns) :
    campMatches connId pcid (campaignUpsertStep env connId st cd).campaigns := by
  obtain ⟨c, hc, h1, h2⟩ := h
  unfold campaignUpsertStep
  split
  · exact ⟨c, by simp [hc], h1, h2⟩
  · refine ⟨_, List.mem_map_of_mem _ hc, ?_⟩
    dsimp only
    split <;> simp [h1, h2]

lemma campMatches_step_self (env : SyncEnv) (connId : Int) (st : CampaignLoopState)
    (cd : MockCampaign) :
    campMatches connId cd.platform_campaign_id
      (campaignUpsertStep env connId st cd).campaigns := by
  unfold campaignUpsertStep
  split
  · exact ⟨_, List.mem_append_right _ (List.mem_singleton_self _), rfl, rfl⟩
  · rename_i e es hfil
    have he : e ∈ st.campaigns.filter (fun c =>
        decide (c.connection_id = connId)
          && decide (c.platform_campaign_id = cd.platform_campaign_id)) := by
      rw [hfil]; simp
    rw [List.mem_filter] at he
    obtain ⟨hmem, hcond⟩ := he
    simp only [Bool.and_eq_true, decide_eq_true_eq] at hcond
    refine ⟨_, List.mem_map_of_mem _ hmem, ?_⟩
    dsimp only
    split <;> simp [hcond.1, hcond.2]

lemma campMatches_foldl (env : SyncEnv) (connId : Int) (mocks : List MockCampaign) :
    ∀ (st : CampaignLoopState), (∀ cd ∈ mocks,
      campMatches connId cd.platform_campaign_id
        ((mocks.foldl (campaignUpsertStep env connId) st).campaigns))
    ∧ (∀ pcid, campMatches connId pcid st.campaigns →
      campMatches connId pcid
        ((mocks.foldl (campaignUpsertStep env connId) st).campaigns)) := by
  induction mocks with
  | nil => exact fun st => ⟨by simp, by simp⟩
  | cons cd mocks ih =>
    intro st
    constructor
    · intro cd' hcd'
      rcases List.mem_cons.mp hcd' with heq | hcd'
      · rw [heq]
        exact (ih _).2 _ (campMatches_step_self env connId st cd)
      · exact (ih _).1 cd' hcd'
    · intro pcid hp
      exact (ih _).2 _ (campMatches_step_mono env connId st cd hp)

lemma map_filter_congr_of_map_eq {α β γ : Type} (f : α → β) (Q : β → Bool) (R : β → γ) :
    ∀ (l₁ l₂ : List α), l₁.map f = l₂.map f →
      (l₁.filter fun a => Q (f a)).map (fun a => R (f a))
        = (l₂.filter fun a => Q (f a)).map (fun a => R (f a)) := by
  intro l₁
  induction l₁ with
  | nil => intro l₂ h; cases l₂ <;> simp_all
  | cons a l ih =>
    intro l₂ h
    cases l₂ with
    | nil => simp at h
    | cons b l₂' =>
      simp only [List.map_cons, List.cons.injEq] at h
      obtain ⟨h1, h2⟩ := h
      simp only [List.filter_cons, h1]
      split <;> simp [h1, ih l₂' h2]

lemma campaign_step_update_only (env : SyncEnv) (connId : Int)
    (st : CampaignLoopState) (cd : MockCampaign)
    (h : campMatches connId cd.platform_campaign_id st.campaigns) :
    ((campaignUpsertStep env connId st cd).campaigns.map campKey
        = st.campaigns.map campKey)
      ∧ (campaignUpsertStep env connId st cd).synced = st.synced
      ∧ (campaignUpsertStep env connId st cd).nextId = st.nextId := by
  unfold campaignUpsertStep
  split
  · rename_i hfil
    exfalso
    obtain ⟨c, hc, h1, h2⟩ := h
    have := List.filter_eq_nil_iff.mp hfil c hc
    simp [h1, h2] at this
  · refine ⟨?_, rfl, rfl⟩
    rw [List.map_map]
    apply List.map_congr_left
    intro c _
    simp only [Function.comp_apply]
    split <;> rfl

lemma campaign_foldl_update_only (env : SyncEnv) (connId : Int)
    (mocks : List MockCampaign) :
    ∀ (st : CampaignLoopState),
      (∀ cd ∈ mocks, campMatches connId cd.platform_campaign_id st.campaigns) →
      ((mocks.foldl (campaignUpsertStep env connId) st).campaigns.map campKey
          = st.campaigns.map campKey)
        ∧ (mocks.foldl (campaignUpsertStep env connId) st).synced = st.synced
        ∧ (mocks.foldl (campaignUpsertStep env connId) st).nextId = st.nextId := by
  induction mocks with
  | nil => exact fun st _ => ⟨rfl, rfl, rfl⟩
  | cons cd mocks ih =>
    intro st h
    have hstep := campaign_step_update_only env connId st cd (h cd (by simp))
    have hrest : ∀ cd' ∈ mocks,
        campMatches connId cd'.platform_campaign_id
          (campaignUpsertStep env connId st cd).campaigns := by
      intro cd' hcd'
      exact campMatches_of_map_eq hstep.1 (h cd' (by simp [hcd']))
    have := ih (campaignUpsertStep env connId st cd) hrest
    refine ⟨?_, ?_, ?_⟩
    · rw [List.foldl_cons, this.1, hstep.1]
    · rw [List.foldl_cons, this.2.1, hstep.2.1]
    · rw [List.foldl_cons, this.2.2, hstep.2.2]

lemma campaign_foldl_count (env : SyncEnv) (connId : Int)
    (mocks : List MockCampaign) :
    ∀ (st : CampaignLoopState),
      (mocks.foldl (campaignUpsertStep env connId) st).campaigns.length
          + st.synced
        = st.campaigns.length
          + (mocks.foldl (campaignUpsertStep env connId) st).synced := by
  induction mocks with
  | nil => intro st; rfl
  | cons cd mocks ih =>
    intro st
    have hstep : (campaignUpsertStep env connId st cd).campaigns.length
          + st.synced
        = st.campaigns.length + (campaignUpsertStep env connId st cd).synced := by
      unfold campaignUpsertStep
      split
      · simp only [List.length_append, List.length_cons, List.length_nil]
        omega
      · simp
    have := ih (campaignUpsertStep env connId st cd)
    rw [List.foldl_cons]
    omega

lemma rowMatches_of_map_eq {l₁ l₂ : List MetricRow} (h : l₁.map rowKey = l₂.map rowKey)
    {campId dateV : Int} (hm : rowMatches campId dateV l₂) :
    rowMatches campId dateV l₁ := by
  obtain ⟨r, hr, h1, h2⟩ := hm
  have : rowKey r ∈ l₁.map rowKey := by
    rw [h]; exact List.mem_map_of_mem _ hr
  obtain ⟨r', hr', hk⟩ := List.mem_map.mp this
  obtain ⟨e2, e3⟩ : r'.campaign_id = r.campaign_id ∧ r'.date = r.date := by
    unfold rowKey at hk
    exact ⟨congrArg (·.2.1) hk, congrArg (·.2.2) hk⟩
  exact ⟨r', hr', by rw [e2, h1], by rw [e3, h2]⟩

lemma rowMatches_step_mono (env : SyncEnv) (entries : List (String × Int))
    (st : MetricLoopState) (md : MockMetric) {campId dateV : Int}
    (h : rowMatches campId dateV st.metrics) :
    rowMatches campId dateV (metricUpsertStep env entries st md).metrics := by
  obtain ⟨r, hr, h1, h2⟩ := h
  unfold metricUpsertStep
  split
  · exact ⟨r, hr, h1, h2⟩
  · split
    · exact ⟨r, by simp [hr], h1, h2⟩
    · refine ⟨_, List.mem_map_of_mem _ hr, ?_⟩
      dsimp only
      split <;> simp [h1, h2]

lemma rowMatches_step_self (env : SyncEnv) (entries : List (String × Int))
    (st : MetricLoopState) (md : MockMetric) {campId : Int}
    (h : lookupLast entries md.platform_campaign_id = some campId) :
    rowMatches campId md.date (metricUpsertStep env entries st md).metrics := by
  unfold metricUpsertStep
  split
  · rename_i hnone
    rw [h] at hnone
    cases hnone
  · rename_i campId' hsome
    rw [h] at hsome
    obtain rfl : campId' = campId := (Option.some.injEq _ _).mp hsome.symm
    split
    · exact ⟨_, List.mem_append_right _ (List.mem_singleton_self _), rfl, rfl⟩
    · rename_i e es hfil
      have he : e ∈ st.metrics.filter (fun r =>
          decide (r.campaign_id = campId') && decide (r.date = md.date)) := by
        rw [hfil]; simp
      rw [List.mem_filter] at he
      obtain ⟨hmem, hcond⟩ := he
      simp only [Bool.and_eq_true, decide_eq_true_eq] at hcond
      refine ⟨_, List.mem_map_of_mem _ hmem, ?_⟩
      dsimp only
      split <;> simp [hcond.1, hcond.2]

lemma rowMatches_foldl (env : SyncEnv) (entries : List (String × Int))
    (mocks : List MockMetric) :
    ∀ (st : MetricLoopState), (∀ md ∈ mocks, ∀ campId,
      lookupLast entries md.platform_campaign_id = some campId →
      rowMatches campId md.date
        ((mocks.foldl (metricUpsertStep env entries) st).metrics))
    ∧ (∀ campId dateV, rowMatches campId dateV st.metrics →
      rowMatches campId dateV
        ((mocks.foldl (metricUpsertStep env entries) st).metrics)) := by
  induction mocks with
  | nil => exact fun st => ⟨by simp, by simp⟩
  | cons md mocks ih =>
    intro st
    constructor
    · intro md' hmd' campId hlk
      rcases List.mem_cons.mp hmd' with heq | hmd'
      · rw [heq]
        rw [heq] at hlk
        exact (ih _).2 _ _ (rowMatches_step_self env entries st md hlk)
      · exact (ih _).1 md' hmd' campId hlk
    · intro campId dateV hp
      exact (ih _).2 _ _ (rowMatches_step_mono env entries st md hp)

lemma metric_step_update_only (env : SyncEnv) (entries : List (String × Int))
    (st : MetricLoopState) (md : MockMetric)
    (h : ∀ campId, lookupLast entries md.platform_campaign_id = some campId →
      rowMatches campId md.date st.metrics) :
    ((metricUpsertStep env entries st md).metrics.map rowKey
        = st.metrics.map rowKey)
      ∧ (metricUpsertStep env entries st md).synced = st.synced
      ∧ (metricUpsertStep env entries st md).nextId = st.nextId := by
  unfold metricUpsertStep
  split
  · exact ⟨rfl, rfl, rfl⟩
  · rename_i campId hlk
    split
    · rename_i hfil
      exfalso
      obtain ⟨r, hr, h1, h2⟩ := h campId hlk
      have := List.filter_eq_nil_iff.mp hfil r hr
      simp [h1, h2] at this
    · refine ⟨?_, rfl, rfl⟩
      rw [List.map_map]
      apply List.map_congr_left
      intro r _
      simp only [Function.comp_apply]
      split <;> rfl

lemma metric_foldl_update_only (env : SyncEnv) (entries : List (String × Int))
    (mocks : List MockMetric) :
    ∀ (st : MetricLoopState),
      (∀ md ∈ mocks, ∀ campId,
        lookupLast entries md.platform_campaign_id = some campId →
        rowMatches campId md.date st.metrics) →
      ((mocks.foldl (metricUpsertStep env entries) st).metrics.map rowKey
          = st.metrics.map rowKey)
        ∧ (mocks.foldl (metricUpsertStep env entries) st).synced = st.synced
        ∧ (mocks.foldl (metricUpsertStep env entries) st).nextId = st.nextId := by
  induction mocks with
  | nil => exact fun st _ => ⟨rfl, rfl, rfl⟩
  | cons md mocks ih =>
    intro st h
    have hstep := metric_step_update_only env entries st md (h md (by simp))
    have hrest : ∀ md' ∈ mocks, ∀ campId,
        lookupLast entries md'.platform_campaign_id = some campId →
        rowMatches campId md'.date (metricUpsertStep env entries st md).metrics := by
      intro md' hmd' campId hlk
      exact rowMatches_of_map_eq hstep.1 (h md' (by simp [hmd']) campId hlk)
    have := ih (metricUpsertStep env entries st md) hrest
    refine ⟨?_, ?_, ?_⟩
    · rw [List.foldl_cons, this.1, hstep.1]
    · rw [List.foldl_cons, this.2.1, hstep.2.1]
    · rw [List.foldl_cons, this.2.2, hstep.2.2]

lemma metric_foldl_count (env : SyncEnv) (entries : List (String × Int))
    (mocks : List MockMetric) :
    ∀ (st : MetricLoopState),
      (mocks.foldl (metricUpsertStep env entries) st).metrics.length + st.synced
        = st.metrics.length
          + (mocks.foldl (metricUpsertStep env entries) st).synced := by
  induction mocks with
  | nil => intro st; rfl
  | cons md mocks ih =>
    intro st
    have hstep : (metricUpsertStep env entries st md).metrics.length + st.synced
        = st.metrics.length + (metricUpsertStep env entries st md).synced := by
      unfold metricUpsertStep
      split
      · rfl
      · split
        · simp only [List.length_append, List.length_cons, List.length_nil]
          omega
        · simp
    have := ih (metricUpsertStep env entries st md)
    rw [List.foldl_cons]
    omega

/-- Natural key of a mock metrics record. -/
def mockKey (md : MockMetric) : String × Int :=
  (md.platform_campaign_id, md.date)

lemma filter_map_comm_of_pred_inv {α : Type} (g : α → α) (p : α → Bool)
    (hp : ∀ a, p (g a) = p a) (l : List α) :
    (l.map g).filter p = (l.filter p).map g := by
  induction l with
  | nil => rfl
  | cons a l ih =>
    simp only [List.map_cons, List.filter_cons, hp a]
    split <;> simp [ih]

lemma generateMockMetrics_key_eq (env env' : SyncEnv) (cs : List MockCampaign)
    (F : Int) (h : env'.now = env.now) :
    (generateMockMetrics env' cs F).map mockKey
      = (generateMockMetrics env cs F).map mockKey := by
  unfold generateMockMetrics
  induction cs with
  | nil => rfl
  | cons c cs ih =>
    simp only [List.flatMap_cons, List.map_append, ih]
    congr 1
    rw [List.map_filterMap, List.map_filterMap]
    apply List.filterMap_congr
    intro i _
    rw [h]
    split <;> rfl

lemma mockKey_mem_of_map_eq {l₁ l₂ : List MockMetric}
    (h : l₁.map mockKey = l₂.map mockKey) {md : MockMetric} (hm : md ∈ l₁) :
    ∃ md' ∈ l₂, md'.platform_campaign_id = md.platform_campaign_id
      ∧ md'.date = md.date := by
  have : mockKey md ∈ l₂.map mockKey := by
    rw [← h]; exact List.mem_map_of_mem _ hm
  obtain ⟨md', hmd', hk⟩ := List.mem_map.mp this
  exact ⟨md', hmd', congrArg (·.1) hk, congrArg (·.2) hk⟩

/-- The mock campaigns generated by one sync run. -/
def syncMocks (env : SyncEnv) (input : SyncCampaignDataInput) (conn : AdConnection) :
    List MockCampaign :=
  generateMockCampaigns conn (syncWindow env conn input.force_sync)

/-- The campaign-loop state after one sync run's campaign upserts. -/
def syncCst (env : SyncEnv) (db : DB) (input : SyncCampaignDataInput)
    (conn : AdConnection) : CampaignLoopState :=
  (syncMocks env input conn).foldl (campaignUpsertStep env input.connection_id)
    ⟨db.campaigns, db.nextCampaignId, 0⟩

/-- The campaign id map (as a key-value list) built after the campaign
upserts of one sync run. -/
def syncEntries (env : SyncEnv) (db : DB) (input : SyncCampaignDataInput)
    (conn : AdConnection) : List (String × Int) :=
  ((syncCst env db input conn).campaigns.filter fun c =>
      decide (c.connection_id = input.connection_id)).map fun c =>
    (c.platform_campaign_id, c.id)

/-- The mock metrics generated by one sync run. -/
def syncMets (env : SyncEnv) (input : SyncCampaignDataInput) (conn : AdConnection) :
    List MockMetric :=
  generateMockMetrics env (syncMocks env input conn) (syncWindow env conn input.force_sync)

/-- The metric-loop state after one sync run's metrics upserts. -/
def syncMst (env : SyncEnv) (db : DB) (input : SyncCampaignDataInput)
    (conn : AdConnection) : MetricLoopState :=
  (syncMets env input conn).foldl
    (metricUpsertStep env (syncEntries env db input conn))
    ⟨db.metrics, db.nextMetricId, 0⟩

lemma syncBody_eq (env : SyncEnv) (db : DB) (input : SyncCampaignDataInput)
    (conn : AdConnection) :
    syncBody env db input conn =
      ({ db with
          connections := db.connections.map fun c =>
            if c.id = input.connection_id then
              { c with last_sync_at := some env.now, updated_at := env.now }
            else c
          campaigns := (syncCst env db input conn).campaigns
          metrics := (syncMst env db input conn).metrics
          nextCampaignId := (syncCst env db input conn).nextId
          nextMetricId := (syncMst env db input conn).nextId },
       .ok { success := true
             campaigns_synced := (syncCst env db input conn).synced
             metrics_synced := (syncMst env db input conn).synced }) := rfl

lemma syncWindow_force (env : SyncEnv) (conn : AdConnection) :
    syncWindow env conn true = env.now - 30 * msPerDay := by
  unfold syncWindow
  cases conn.last_sync_at <;> simp

lemma syncCst_count (env : SyncEnv) (db : DB) (input : SyncCampaignDataInput)
    (conn : AdConnection) :
    (syncCst env db input conn).campaigns.length
      = db.campaigns.length + (syncCst env db input conn).synced := by
  unfold syncCst
  have h := campaign_foldl_count env input.connection_id (syncMocks env input conn)
    ⟨db.campaigns, db.nextCampaignId, 0⟩
  dsimp only at h
  omega

lemma syncMst_count (env : SyncEnv) (db : DB) (input : SyncCampaignDataInput)
    (conn : AdConnection) :
    (syncMst env db input conn).metrics.length
      = db.metrics.length + (syncMst env db input conn).synced := by
  unfold syncMst
  have h := metric_foldl_count env (syncEntries env db input conn)
    (syncMets env input conn) ⟨db.metrics, db.nextMetricId, 0⟩
  dsimp only at h
  omega

lemma syncCst_matches (env : SyncEnv) (db : DB) (input : SyncCampaignDataInput)
    (conn : AdConnection) :
    ∀ cd ∈ syncMocks env input conn,
      campMatches input.connection_id cd.platform_campaign_id
        (syncCst env db input conn).campaigns := by
  unfold syncCst
  exact (campMatches_foldl env input.connection_id (syncMocks env input conn)
    ⟨db.campaigns, db.nextCampaignId, 0⟩).1

lemma syncMst_rowMatches (env : SyncEnv) (db : DB) (input : SyncCampaignDataInput)
    (conn : AdConnection) :
    ∀ md ∈ syncMets env input conn, ∀ campId,
      lookupLast (syncEntries env db input conn) md.platform_campaign_id
          = some campId →
      rowMatches campId md.date (syncMst env db input conn).metrics := by
  unfold syncMst
  exact (rowMatches_foldl env (syncEntries env db input conn)
    (syncMets env input conn) ⟨db.metrics, db.nextMetricId, 0⟩).1

/-- A second sync run, started on the state produced by a first run at the
same instant against the same connection, inserts nothing: both loop
counters stay 0 and the campaign and metrics tables keep their length. -/
lemma sync_second_run (env env' : SyncEnv) (db db₁ : DB)
    (input : SyncCampaignDataInput) (conn conn2 : AdConnection)
    (hpl : conn2.platform = conn.platform) (hnow : env'.now = env.now)
    (hforce : input.force_sync = true)
    (hc : db₁.campaigns = (syncCst env db input conn).campaigns)
    (hm : db₁.metrics = (syncMst env db input conn).metrics) :
    (syncCst env' db₁ input conn2).synced = 0
      ∧ (syncCst env' db₁ input conn2).campaigns.length = db₁.campaigns.length
      ∧ (syncMst env' db₁ input conn2).synced = 0
      ∧ (syncMst env' db₁ input conn2).metrics.length = db₁.metrics.length := by
  have hmocks : syncMocks env' input conn2 = syncMocks env input conn := by
    unfold syncMocks generateMockCampaigns
    rw [hpl]
  have hW : syncWindow env' conn2 input.force_sync
      = syncWindow env conn input.force_sync := by
    rw [hforce, syncWindow_force, syncWindow_force, hnow]
  have hkeys : (syncMets env' input conn2).map mockKey
      = (syncMets env input conn).map mockKey := by
    unfold syncMets
    rw [hmocks, hW]
    exact generateMockMetrics_key_eq env env' _ _ hnow
  have hall : ∀ cd ∈ syncMocks env' input conn2,
      campMatches input.connection_id cd.platform_campaign_id db₁.campaigns := by
    rw [hmocks, hc]
    exact syncCst_matches env db input conn
  have hcst2 := campaign_foldl_update_only env' input.connection_id
    (syncMocks env' input conn2) ⟨db₁.campaigns, db₁.nextCampaignId, 0⟩ hall
  have hcs : (syncCst env' db₁ input conn2).synced = 0 := by
    unfold syncCst
    have h := hcst2.2.1
    dsimp only at h
    exact h
  have hckeys : (syncCst env' db₁ input conn2).campaigns.map campKey
      = (syncCst env db input conn).campaigns.map campKey := by
    have hx : (syncCst env' db₁ input conn2).campaigns.map campKey
        = db₁.campaigns.map campKey := by
      unfold syncCst
      have h := hcst2.1
      dsimp only at h
      exact h
    rw [hx, hc]
  have hclen : (syncCst env' db₁ input conn2).campaigns.length
      = db₁.campaigns.length := by
    have := congrArg List.length hckeys
    simp only [List.length_map] at this
    rw [this, hc]
  have hent : syncEntries env' db₁ input conn2 = syncEntries env db input conn := by
    unfold syncEntries
    exact map_filter_congr_of_map_eq campKey
      (fun k => decide (k.2.1 = input.connection_id)) (fun k => (k.2.2, k.1))
      _ _ hckeys
  have hmet : ∀ md ∈ syncMets env' input conn2, ∀ campId,
      lookupLast (syncEntries env' db₁ input conn2) md.platform_campaign_id
          = some campId →
      rowMatches campId md.date db₁.metrics := by
    intro md hmd campId hlk
    rw [hent] at hlk
    obtain ⟨md', hmd', hpcid, hdate⟩ := mockKey_mem_of_map_eq hkeys hmd
    rw [← hpcid] at hlk
    have := syncMst_rowMatches env db input conn md' hmd' campId hlk
    rw [hm, ← hdate]
    exact this
  have hmst2 := metric_foldl_update_only env' (syncEntries env' db₁ input conn2)
    (syncMets env' input conn2) ⟨db₁.metrics, db₁.nextMetricId, 0⟩ hmet
  have hms : (syncMst env' db₁ input conn2).synced = 0 := by
    unfold syncMst
    have h := hmst2.2.1
    dsimp only at h
    exact h
  have hmlen : (syncMst env' db₁ input conn2).metrics.length
      = db₁.metrics.length := by
    have h := hmst2.1
    have := congrArg List.length h
    simp only [List.length_map] at this
    unfold syncMst
    exact this
  exact ⟨hcs, hclen, hms, hmlen⟩

lemma syncCampaignData_ok (env : SyncEnv) (db : DB) (input : SyncCampaignDataInput)
    (conn : AdConnection) (rest : List AdConnection)
    (h1 : db.connections.filter (fun c => decide (c.id = input.connection_id))
        = conn :: rest)
    (h2 : conn.status = "connected") :
    syncCampaignData env db input = syncBody env db input conn := by
  unfold syncCampaignData
  rw [h1]
  dsimp only
  rw [if_neg (by simp [h2])]

/-- Claim C8: sync's upsert is idempotent on its natural keys: after a
first `syncCampaignData` run with `force_sync = true`, an immediate second
run (same instant, random values free to differ) succeeds with
`campaigns_synced` and `metrics_synced` both 0 and leaves the stored
campaign and metrics row counts unchanged; moreover the returned counts
track only newly inserted rows — the first run's counts equal exactly the
growth of the respective tables. -/
theorem syncCampaignData_idempotent (env env' : SyncEnv) (db : DB) (cid : Int)
    (conn : AdConnection) (rest : List AdConnection)
    (h1 : db.connections.filter (fun c => decide (c.id = cid)) = conn :: rest)
    (h2 : conn.status = "connected") (hnow : env'.now = env.now) :
    ∃ r₁ r₂ : SyncResult,
      (syncCampaignData env db ⟨cid, true⟩).2 = .ok r₁ ∧
      (syncCampaignData env' (syncCampaignData env db ⟨cid, true⟩).1 ⟨cid, true⟩).2
          = .ok r₂ ∧
      r₁.campaigns_synced + db.campaigns.length
        = (syncCampaignData env db ⟨cid, true⟩).1.campaigns.length ∧
      r₁.metrics_synced + db.metrics.length
        = (syncCampaignData env db ⟨cid, true⟩).1.metrics.length ∧
      r₂.campaigns_synced = 0 ∧ r₂.metrics_synced = 0 ∧
      (syncCampaignData env' (syncCampaignData env db ⟨cid, true⟩).1
          ⟨cid, true⟩).1.campaigns.length
        = (syncCampaignData env db ⟨cid, true⟩).1.campaigns.length ∧
      (syncCampaignData env' (syncCampaignData env db ⟨cid, true⟩).1
          ⟨cid, true⟩).1.metrics.length
        = (syncCampaignData env db ⟨cid, true⟩).1.metrics.length := by
  have hc_id : conn.id = cid := by
    have hmem : conn ∈ db.connections.filter (fun c => decide (c.id = cid)) := by
      rw [h1]; exact List.mem_cons_self _ _
    simpa using (List.mem_filter.mp hmem).2
  have hok1 : syncCampaignData env db ⟨cid, true⟩ = syncBody env db ⟨cid, true⟩ conn :=
    syncCampaignData_ok env db ⟨cid, true⟩ conn rest h1 h2
  rw [hok1, syncBody_eq]
  dsimp only
  have hp : ∀ a : AdConnection,
      (decide ((if a.id = cid then
          ({ a with last_sync_at := some env.now, updated_at := env.now } : AdConnection)
        else a).id = cid)) = decide (a.id = cid) := by
    intro a
    by_cases h : a.id = cid <;> simp [h]
  have hfil2 : ((db.connections.map fun c => if c.id = cid then
        { c with last_sync_at := some env.now, updated_at := env.now } else c).filter
          fun c => decide (c.id = cid))
      = ({ conn with last_sync_at := some env.now, updated_at := env.now } : AdConnection)
          :: rest.map (fun c => if c.id = cid then
            { c with last_sync_at := some env.now, updated_at := env.now } else c) := by
    rw [filter_map_comm_of_pred_inv _ _ hp, h1]
    dsimp only [List.map_cons]
    rw [if_pos hc_id]
  have hok2 := syncCampaignData_ok env'
    ({ db with
        connections := db.connections.map fun c =>
          if c.id = cid then
            { c with last_sync_at := some env.now, updated_at := env.now } else c
        campaigns := (syncCst env db ⟨cid, true⟩ conn).campaigns
        metrics := (syncMst env db ⟨cid, true⟩ conn).metrics
        nextCampaignId := (syncCst env db ⟨cid, true⟩ conn).nextId
        nextMetricId := (syncMst env db ⟨cid, true⟩ conn).nextId })
    ⟨cid, true⟩
    ({ conn with last_sync_at := some env.now, updated_at := env.now })
    (rest.map (fun c => if c.id = cid then
      { c with last_sync_at := some env.now, updated_at := env.now } else c))
    hfil2 h2
  rw [hok2, syncBody_eq]
  dsimp only
  have hsecond := sync_second_run env env' db
    ({ db with
        connections := db.connections.map fun c =>
          if c.id = cid then
            { c with last_sync_at := some env.now, updated_at := env.now } else c
        campaigns := (syncCst env db ⟨cid, true⟩ conn).campaigns
        metrics := (syncMst env db ⟨cid, true⟩ conn).metrics
        nextCampaignId := (syncCst env db ⟨cid, true⟩ conn).nextId
        nextMetricId := (syncMst env db ⟨cid, true⟩ conn).nextId })
    ⟨cid, true⟩ conn
    ({ conn with last_sync_at := some env.now, updated_at := env.now })
    rfl hnow rfl rfl rfl
  refine ⟨_, _, rfl, rfl, ?_, ?_, hsecond.1, hsecond.2.2.1, ?_, ?_⟩
  · have := syncCst_count env db ⟨cid, true⟩ conn
    dsimp only
    omega
  · have := syncMst_count env db ⟨cid, true⟩ conn
    dsimp only
    omega
  · exact hsecond.2.1
  · exact hsecond.2.2.2

/-- Witness for C8: two immediate forced syncs of the example store's
connected connection; the theorem's hypotheses hold by computation. -/
theorem syncCampaignData_idempotent_witness :
    ∃ r₁ r₂ : SyncResult,
      (syncCampaignData exSyncEnv exDb ⟨1, true⟩).2 = .ok r₁ ∧
      (syncCampaignData exSyncEnv (syncCampaignData exSyncEnv exDb ⟨1, true⟩).1
          ⟨1, true⟩).2 = .ok r₂ ∧
      r₁.campaigns_synced + exDb.campaigns.length
        = (syncCampaignData exSyncEnv exDb ⟨1, true⟩).1.campaigns.length ∧
      r₁.metrics_synced + exDb.metrics.length
        = (syncCampaignData exSyncEnv exDb ⟨1, true⟩).1.metrics.length ∧
      r₂.campaigns_synced = 0 ∧ r₂.metrics_synced = 0 ∧
      (syncCampaignData exSyncEnv (syncCampaignData exSyncEnv exDb ⟨1, true⟩).1
          ⟨1, true⟩).1.campaigns.length
        = (syncCampaignData exSyncEnv exDb ⟨1, true⟩).1.campaigns.length ∧
      (syncCampaignData exSyncEnv (syncCampaignData exSyncEnv exDb ⟨1, true⟩).1
          ⟨1, true⟩).1.metrics.length
        = (syncCampaignData exSyncEnv exDb ⟨1, true⟩).1.metrics.length :=
  syncCampaignData_idempotent exSyncEnv exSyncEnv exDb 1 exConn []
    (by decide) (by decide) rfl

/-! ## updateConnectionStatus (src/server/src/handlers/update_connection_status.ts) -/

/-- Input of `updateConnectionStatus`. -/
structure UpdateConnectionStatusInput where
  connection_id : Int
  status : String
  last_sync_at : Option Int
  deriving DecidableEq, Repr

/-- Failure condition of `updateConnectionStatus`. -/
inductive UpdError where
  | notFound
  deriving DecidableEq, Repr

/-- Modelled from the spec: the handler body in
`update_connection_status.ts` is an explicit placeholder declaration
("Real code should be implemented here"), so the update operation is
modelled from spec section 4.5 and the handler's test file: validate that
the target connection exists (fail with a not-found condition otherwise,
leaving the store untouched), update `status` and, if supplied,
`last_sync_at`, always refresh `updated_at`, and preserve every other
field. -/
def updateConnectionStatus (now : Int) (db : DB)
    (input : UpdateConnectionStatusInput) : DB × Except UpdError AdConnection :=
  match db.connections.filter (fun c => decide (c.id = input.connection_id)) with
  | [] => (db, .error .notFound)
  | c :: _ =>
    let upd := fun (x : AdConnection) =>
      { x with status := input.status
               last_sync_at := match input.last_sync_at with
                 | some t => some t
                 | none => x.last_sync_at
               updated_at := now }
    ({ db with connections := db.connections.map fun x =>
        if x.id = input.connection_id then upd x else x },
     .ok (upd c))

/-- Claim C6: when no stored connection has the requested id,
`updateConnectionStatus` fails with a not-found condition — it does not
return a fabricated success record — and the store it returns is the input
store, entirely unchanged. -/
theorem updateConnectionStatus_not_found (now : Int) (db : DB)
    (input : UpdateConnectionStatusInput)
    (h : ∀ c ∈ db.connections, c.id ≠ input.connection_id) :
    updateConnectionStatus now db input = (db, .error .notFound) := by
  unfold updateConnectionStatus
  rw [List.filter_eq_nil_iff.mpr (by simpa using h)]

/-- Witness for C6: connection id 99 is unknown to the example store. -/
theorem updateConnectionStatus_not_found_witness :
    updateConnectionStatus 0 exDb ⟨99, "connected", none⟩
      = (exDb, .error .notFound) :=
  updateConnectionStatus_not_found 0 exDb ⟨99, "connected", none⟩ (by decide)

/-! ## generateAiInsight (src/server/src/handlers/generate_ai_insight.ts) -/

/-- The `date_range` sub-object of the insight input (two instants). -/
structure DateRange where
  start_date : Int
  end_date : Int
  deriving DecidableEq, Repr

/-- Input of `generateAiInsight`. -/
structure GenerateAiInsightInput where
  user_id : Int
  campaign_id : Option Int
  connection_id : Option Int
  insight_type : String
  platform : String
  objective : Option String
  date_range : DateRange
  deriving DecidableEq, Repr

/-- The three not-found conditions `generateAiInsight` can raise. -/
inductive GenErr where
  | userNotFound
  | campaignNotFound
  | connectionNotFound
  deriving DecidableEq, Repr

/-- The template record produced by `generateInsightContent` (the
free-form JSON `metadata` of the source is omitted, as in `AiInsight`). -/
structure InsightContent where
  title : String
  content : String
  recommendations : String
  confidence_score : ℚ
  deriving DecidableEq, Repr

/-- The human-readable date range interpolated into insight text; the
`YYYY-MM-DD` rendering of `toISOString` is abstracted to the decimal
rendering of the calendar day number. -/
def dateRangeStr (dr : DateRange) : String :=
  toString (dayOf dr.start_date) ++ " to " ++ toString (dayOf dr.end_date)

/-- `generateInsightContent`: a fixed template keyed solely by
`insight_type`, with the platform name and formatted date range
interpolated; an unrecognized type falls back to a generic template. -/
def generateInsightContent (input : GenerateAiInsightInput) : InsightContent :=
  let dr := dateRangeStr input.date_range
  match input.insight_type with
  | "funnel_evaluation" =>
    { title := "Funnel Performance Analysis - " ++ input.platform
      content := "Analyzed conversion funnel performance for " ++ input.platform
        ++ " campaigns from " ++ dr
        ++ ". The funnel shows opportunities for optimization at key conversion points."
      recommendations := "Focus on improving mid-funnel engagement rates. Consider A/B testing different creative formats to reduce drop-off at the consideration stage."
      confidence_score := 85/100 }
  | "key_metrics" =>
    { title := "Key Metrics Performance Summary - " ++ input.platform
      content := "Comprehensive analysis of key performance indicators for "
        ++ input.platform ++ " campaigns during " ++ dr
        ++ ". Identified trends in ROAS, CTR, and conversion rates."
      recommendations := "Optimize budget allocation towards high-performing ad sets. Consider increasing bids for campaigns with ROAS above 3.0."
      confidence_score := 92/100 }
  | "anomaly_detection" =>
    { title := "Performance Anomaly Detection - " ++ input.platform
      content := "Detected unusual patterns in campaign performance during " ++ dr
        ++ ". Significant deviations from baseline metrics identified."
      recommendations := "Investigate sudden changes in CPM and conversion rates. Check for external factors affecting campaign performance."
      confidence_score := 78/100 }
  | "audience_segmentation" =>
    { title := "Audience Segmentation Analysis - " ++ input.platform
      content := "Analyzed audience segments performance for " ++ input.platform
        ++ " campaigns from " ++ dr
        ++ ". Identified high-value customer segments and their behaviors."
      recommendations := "Create lookalike audiences based on top-performing segments. Adjust targeting parameters to focus on high-converting demographics."
      confidence_score := 88/100 }
  | "optimization_strategy" =>
    { title := "Campaign Optimization Strategy - " ++ input.platform
      content := "Generated comprehensive optimization strategy for " ++ input.platform
        ++ " campaigns based on performance data from " ++ dr ++ "."
      recommendations := "Implement automated bidding strategies. Increase budget for campaigns with CPA below target. Pause underperforming ad sets."
      confidence_score := 90/100 }
  | "campaign_structure" =>
    { title := "Campaign Structure Analysis - " ++ input.platform
      content := "Evaluated campaign structure efficiency for " ++ input.platform
        ++ " during " ++ dr
        ++ ". Identified opportunities for better organization and performance."
      recommendations := "Restructure campaigns by product categories. Separate brand and non-brand campaigns for better budget control."
      confidence_score := 83/100 }
  | "algorithm_explanation" =>
    { title := "Platform Algorithm Insights - " ++ input.platform
      content := "Analysis of " ++ input.platform
        ++ " algorithm behavior and its impact on campaign performance during "
        ++ dr ++ "."
      recommendations := "Allow algorithm more time for optimization. Avoid frequent campaign changes that reset learning phase."
      confidence_score := 75/100 }
  | "testing_scaling" =>
    { title := "Testing and Scaling Strategy - " ++ input.platform
      content := "Developed testing framework and scaling strategy for "
        ++ input.platform ++ " campaigns based on " ++ dr ++ " performance data."
      recommendations := "Implement systematic creative testing. Scale winning ad sets gradually with 20-30% budget increases."
      confidence_score := 87/100 }
  | "content_strategy" =>
    { title := "Content Strategy Recommendations - " ++ input.platform
      content := "Analyzed content performance patterns for " ++ input.platform
        ++ " campaigns from " ++ dr
        ++ ". Identified top-performing creative elements."
      recommendations := "Focus on video content with strong hooks in first 3 seconds. Test user-generated content variations."
      confidence_score := 81/100 }
  | _ =>
    { title := "General Campaign Insights - " ++ input.platform
      content := "Generated insights for " ++ input.platform
        ++ " campaigns based on performance data from " ++ dr ++ "."
      recommendations := "Review campaign performance regularly and adjust strategies based on data trends."
      confidence_score := 70/100 }

/-- `generateAiInsight`: the source checks only that the referenced user,
campaign and connection rows exist (each by id equality alone — no
ownership join), then inserts and returns the templated insight row. -/
def generateAiInsight (now : Int) (db : DB) (input : GenerateAiInsightInput) :
    DB × Except GenErr AiInsight :=
  if (db.users.filter fun u => decide (u.id = input.user_id)).length = 0 then
    (db, .error .userNotFound)
  else if (match input.campaign_id with
      | some cId =>
        decide ((db.campaigns.filter fun (c : Campaign) => decide (c.id = cId)).length = 0)
      | none => false) then
    (db, .error .campaignNotFound)
  else if (match input.connection_id with
      | some coId =>
        decide ((db.connections.filter fun (cn : AdConnection) => decide (cn.id = coId)).length = 0)
      | none => false) then
    (db, .error .connectionNotFound)
  else
    let content := generateInsightContent input
    let row : AiInsight :=
      { id := db.nextInsightId, user_id := input.user_id
        campaign_id := input.campaign_id, connection_id := input.connection_id
        insight_type := input.insight_type, title := content.title
        content := content.content, recommendations := content.recommendations
        confidence_score := content.confidence_score, platform := input.platform
        objective := input.objective, created_at := now }
    ({ db with insights := db.insights ++ [row]
               nextInsightId := db.nextInsightId + 1 },
     .ok row)

/-- A user with id 1, the requester of the ownership counterexample. -/
def exUserA : User := { id := 1, email := "a@x.com", name := "A" }

/-- A second user with id 2, the actual owner of campaign 3. -/
def exUserB : User := { id := 2, email := "b@x.com", name := "B" }

/-- A connection (id 7) owned by user 2. -/
def exConnB : AdConnection := { exConn with id := 7, user_id := 2 }

/-- A campaign (id 3) under connection 7, hence owned by user 2. -/
def exCampaignB : Campaign := { exCampaign with id := 3, connection_id := 7 }

/-- The store of the ownership counterexample. -/
def exDbIns : DB :=
  { users := [exUserA, exUserB], connections := [exConnB]
    campaigns := [exCampaignB], metrics := [], insights := []
    nextCampaignId := 4, nextMetricId := 1, nextInsightId := 1 }

/-- User 1 requests an insight that references user 2's campaign 3. -/
def exInsightInput : GenerateAiInsightInput :=
  { user_id := 1, campaign_id := some 3, connection_id := none
    insight_type := "key_metrics", platform := "meta_ads", objective := none
    date_range := ⟨0, 0⟩ }

/-- Counterexample to claim C9 as stated: campaign 3 belongs, through
connection 7, to user 2 — it is not traceable to requesting user 1 — so
the claim demands a not-found failure with nothing persisted; the code
checks the campaign id for bare existence only, succeeds, and persists a
new insight row. -/
theorem generateAiInsight_unowned_succeeds :
    exCampaignB.connection_id = 7 ∧ exConnB.user_id = 2
      ∧ exInsightInput.user_id = 1 ∧ exCampaignB ∈ exDbIns.campaigns
      ∧ (∃ ins, (generateAiInsight 0 exDbIns exInsightInput).2 = Except.ok ins)
      ∧ (generateAiInsight 0 exDbIns exInsightInput).1.insights.length
          = exDbIns.insights.length + 1 :=
  ⟨rfl, rfl, rfl, by decide, ⟨_, rfl⟩, rfl⟩

/-- Claim C9 (amended): `generateAiInsight` fails with a not-found
condition when the user id references no existing User, and, when
campaign_id or connection_id is supplied, fails with a not-found condition
unless that id references an existing row — existence only: ownership by
the requesting user is not checked; in every failure case the returned
store is the input store, so no AiInsight row is persisted. -/
theorem generateAiInsight_existence_checks (now : Int) (db : DB)
    (input : GenerateAiInsightInput) :
    ((db.users.filter fun u => decide (u.id = input.user_id)) = [] →
      generateAiInsight now db input = (db, .error .userNotFound)) ∧
    (∀ cId, input.campaign_id = some cId →
      (db.users.filter fun u => decide (u.id = input.user_id)) ≠ [] →
      (db.campaigns.filter fun c => decide (c.id = cId)) = [] →
      generateAiInsight now db input = (db, .error .campaignNotFound)) ∧
    (∀ coId, input.connection_id = some coId →
      (db.users.filter fun u => decide (u.id = input.user_id)) ≠ [] →
      (∀ cId, input.campaign_id = some cId →
        (db.campaigns.filter fun c => decide (c.id = cId)) ≠ []) →
      (db.connections.filter fun cn => decide (cn.id = coId)) = [] →
      generateAiInsight now db input = (db, .error .connectionNotFound)) := by
  refine ⟨?_, ?_, ?_⟩
  · intro h
    unfold generateAiInsight
    rw [if_pos (by simp [h])]
  · intro cId h1 h2 h3
    unfold generateAiInsight
    rw [if_neg (by simpa [List.length_eq_zero] using h2)]
    rw [if_pos (by simp [h1, h3])]
  · intro coId h1 h2 h3 h4
    unfold generateAiInsight
    rw [if_neg (by simpa [List.length_eq_zero] using h2)]
    rw [if_neg ?_, if_pos (by simp [h1, h4])]
    cases hci : input.campaign_id with
    | none => simp
    | some cId => simpa [hci, List.length_eq_zero] using h3 cId hci

/-- Witness for C9 (amended): an unknown user id fails with the user
not-found condition and leaves the store unchanged. -/
theorem generateAiInsight_existence_checks_witness :
    generateAiInsight 0 exDbIns { exInsightInput with user_id := 42 }
      = (exDbIns, .error .userNotFound) :=
  (generateAiInsight_existence_checks 0 exDbIns
    { exInsightInput with user_id := 42 }).1 (by decide)

/-! ## getDashboardData (src/server/src/handlers/get_dashboard_data.ts)

The handler body is an explicit placeholder declaration ("Real code should
be implemented here"), so the aggregation engine is modelled from spec
sections 4.1 and 4.2. -/

/-- Input of `getDashboardData` (schema: user id, optional platform and
objective filters, required date range). -/
structure GetDashboardDataInput where
  user_id : Int
  platform : Option String
  objective : Option String
  date_range : DateRange
  deriving DecidableEq, Repr

/-- A fetched metric row together with the platform of its owning
connection and the objective of its owning campaign. -/
structure DashRow where
  m : MetricRow
  platform : String
  objective : String
  deriving DecidableEq, Repr

/-- Modelled from the spec: the row set the aggregation engine consumes —
metric rows joined through campaign and connection to enforce ownership,
restricted to the user, the inclusive calendar-date range, and the
optional exact-match platform/objective filters (spec section 4.1). -/
def dashboardRows (db : DB) (input : GetDashboardDataInput) : List DashRow :=
  ((metricsJoin db).filter fun t =>
    decide (t.2.2.user_id = input.user_id)
      && decide (dayOf input.date_range.start_date ≤ t.1.date)
      && decide (t.1.date ≤ dayOf input.date_range.end_date)
      && (match input.platform with
          | some p => decide (t.2.2.platform = p)
          | none => true)
      && (match input.objective with
          | some o => decide (t.2.1.objective = o)
          | none => true)).map
    fun t => ⟨t.1, t.2.2.platform, t.2.1.objective⟩

/-- Modelled from the spec: unweighted arithmetic mean that
short-circuits to 0 on an empty list instead of producing a
not-a-number result (spec section 4.2). -/
def mean0 (xs : List ℚ) : ℚ := if xs.isEmpty then 0 else xs.sum / xs.length

/-- The scalar summary block of the dashboard result. -/
structure SummaryMetrics where
  total_spend : ℚ
  total_impressions : Int
  total_clicks : Int
  total_conversions : Int
  avg_ctr : ℚ
  avg_cpc : ℚ
  avg_roas : ℚ
  deriving DecidableEq, Repr

/-- Modelled from the spec: totals are simple sums over the row set,
averages are unweighted arithmetic means, all 0 on the empty set. -/
def summaryMetrics (rows : List DashRow) : SummaryMetrics :=
  { total_spend := (rows.map (·.m.spend)).sum
    total_impressions := (rows.map (·.m.impressions)).sum
    total_clicks := (rows.map (·.m.clicks)).sum
    total_conversions := (rows.map (·.m.conversions)).sum
    avg_ctr := mean0 (rows.map (·.m.ctr))
    avg_cpc := mean0 (rows.map (·.m.cpc))
    avg_roas := mean0 (rows.map (·.m.roas)) }

/-- One entry of the per-platform breakdown. -/
structure PlatformEntry where
  platform : String
  spend : ℚ
  impressions : Int
  clicks : Int
  conversions : Int
  deriving DecidableEq, Repr

/-- One entry of the per-objective breakdown. -/
structure ObjectiveEntry where
  objective : String
  spend : ℚ
  performance_score : ℚ
  deriving DecidableEq, Repr

/-- The grouping keys that occur in the row set, each once. -/
def groupKeys {κ : Type} [DecidableEq κ] (f : DashRow → κ) (rows : List DashRow) :
    List κ :=
  (rows.map f).dedup

/-- The rows of one group. -/
def groupRows {κ : Type} [DecidableEq κ] (f : DashRow → κ) (rows : List DashRow)
    (k : κ) : List DashRow :=
  rows.filter fun r => decide (f r = k)

/-- Modelled from the spec: group rows by the platform of their owning
connection; emit platform and summed spend/impressions/clicks/conversions
per occurring group only (spec section 4.2). -/
def platformBreakdown (rows : List DashRow) : List PlatformEntry :=
  (groupKeys (·.platform) rows).map fun p =>
    { platform := p
      spend := ((groupRows (·.platform) rows p).map (·.m.spend)).sum
      impressions := ((groupRows (·.platform) rows p).map (·.m.impressions)).sum
      clicks := ((groupRows (·.platform) rows p).map (·.m.clicks)).sum
      conversions := ((groupRows (·.platform) rows p).map (·.m.conversions)).sum }

/-- Modelled from the spec: group rows by the objective of their owning
campaign; emit objective, summed spend, and a performance score equal to
the unweighted arithmetic mean of roas across the group (spec section
4.2: a mean, not a sum). -/
def objectiveBreakdown (rows : List DashRow) : List ObjectiveEntry :=
  (groupKeys (·.objective) rows).map fun o =>
    { objective := o
      spend := ((groupRows (·.objective) rows o).map (·.m.spend)).sum
      performance_score := mean0 ((groupRows (·.objective) rows o).map (·.m.roas)) }

/-- One entry of the recent-insights feed (header fields only). -/
structure RecentInsight where
  id : Int
  title : String
  insight_type : String
  confidence_score : ℚ
  created_at : Int
  deriving DecidableEq, Repr

/-- Dashboard feed order: creation time descending; the spec leaves the
tie-break unspecified and suggests id descending, which this model
adopts. -/
def dashInsightOrd (a b : AiInsight) : Bool :=
  decide (b.created_at < a.created_at
    ∨ (a.created_at = b.created_at ∧ b.id ≤ a.id))

/-- Modelled from the spec: up to 5 of the user's insights, optionally
restricted by the same platform/objective filters, most recent first
(spec section 4.2). -/
def recentInsights (db : DB) (input : GetDashboardDataInput) :
    List RecentInsight :=
  (((db.insights.filter fun i =>
      decide (i.user_id = input.user_id)
        && (match input.platform with
            | some p => decide (i.platform = p)
            | none => true)
        && (match input.objective with
            | some o => decide (i.objective = some o)
            | none => true)).mergeSort dashInsightOrd).take 5).map
    fun i => ⟨i.id, i.title, i.insight_type, i.confidence_score, i.created_at⟩

/-- The dashboard result shape. -/
structure DashboardData where
  summary_metrics : SummaryMetrics
  platform_breakdown : List PlatformEntry
  objective_breakdown : List ObjectiveEntry
  recent_insights : List RecentInsight
  deriving DecidableEq, Repr

/-- Modelled from the spec: the dashboard rollup — a pure function of the
filtered row set plus the recent-insights side fetch. -/
def getDashboardData (db : DB) (input : GetDashboardDataInput) : DashboardData :=
  { summary_metrics := summaryMetrics (dashboardRows db input)
    platform_breakdown := platformBreakdown (dashboardRows db input)
    objective_breakdown := objectiveBreakdown (dashboardRows db input)
    recent_insights := recentInsights db input }

/-- Claim C1: for every input, the dashboard summary totals equal the sums
of spend/impressions/clicks/conversions over the filtered row set, the
three averages equal the unweighted arithmetic means of the per-row ctr,
cpc and roas values, and on an empty row set every one of the seven
scalars is 0. -/
theorem getDashboardData_summary_spec (db : DB) (input : GetDashboardDataInput) :
    ((getDashboardData db input).summary_metrics.total_spend
        = ((dashboardRows db input).map (·.m.spend)).sum
      ∧ (getDashboardData db input).summary_metrics.total_impressions
        = ((dashboardRows db input).map (·.m.impressions)).sum
      ∧ (getDashboardData db input).summary_metrics.total_clicks
        = ((dashboardRows db input).map (·.m.clicks)).sum
      ∧ (getDashboardData db input).summary_metrics.total_conversions
        = ((dashboardRows db input).map (·.m.conversions)).sum) ∧
    (dashboardRows db input ≠ [] →
      (getDashboardData db input).summary_metrics.avg_ctr
          = ((dashboardRows db input).map (·.m.ctr)).sum
            / ((dashboardRows db input).length : ℚ)
        ∧ (getDashboardData db input).summary_metrics.avg_cpc
          = ((dashboardRows db input).map (·.m.cpc)).sum
            / ((dashboardRows db input).length : ℚ)
        ∧ (getDashboardData db input).summary_metrics.avg_roas
          = ((dashboardRows db input).map (·.m.roas)).sum
            / ((dashboardRows db input).length : ℚ)) ∧
    (dashboardRows db input = [] →
      (getDashboardData db input).summary_metrics.total_spend = 0
        ∧ (getDashboardData db input).summary_metrics.total_impressions = 0
        ∧ (getDashboardData db input).summary_metrics.total_clicks = 0
        ∧ (getDashboardData db input).summary_metrics.total_conversions = 0
        ∧ (getDashboardData db input).summary_metrics.avg_ctr = 0
        ∧ (getDashboardData db input).summary_metrics.avg_cpc = 0
        ∧ (getDashboardData db input).summary_metrics.avg_roas = 0) := by
  refine ⟨⟨rfl, rfl, rfl, rfl⟩, ?_, ?_⟩
  · intro h
    refine ⟨?_, ?_, ?_⟩ <;>
      simp [getDashboardData, summaryMetrics, mean0, List.isEmpty_iff, h]
  · intro h
    simp [getDashboardData, summaryMetrics, mean0, h]

/-- A dashboard query of the example store that matches one row. -/
def exDashInput : GetDashboardDataInput :=
  { user_id := 7, platform := none, objective := none
    date_range := ⟨exInput.start_date, exInput.end_date⟩ }

/-- A dashboard query of the example store that matches no row. -/
def exDashEmptyInput : GetDashboardDataInput :=
  { user_id := 999, platform := none, objective := none, date_range := ⟨0, 0⟩ }

/-- Witness for C1: the roas average on a non-empty example query, and the
zero average on an empty one. -/
theorem getDashboardData_summary_spec_witness :
    (getDashboardData exDb exDashInput).summary_metrics.avg_roas
        = ((dashboardRows exDb exDashInput).map (·.m.roas)).sum
          / ((dashboardRows exDb exDashInput).length : ℚ)
      ∧ (getDashboardData exDb exDashEmptyInput).summary_metrics.avg_roas = 0 :=
  ⟨((getDashboardData_summary_spec exDb exDashInput).2.1 (by decide)).2.2,
   ((getDashboardData_summary_spec exDb exDashEmptyInput).2.2
     (by decide)).2.2.2.2.2.2⟩

/-- Claim C2: every objective-breakdown entry carries a performance score
equal to the unweighted arithmetic mean of roas over its (non-empty)
group; in particular two rows with roas 5.0 and 1.25 sharing an objective
yield one group scoring 3.125, and in separate groups (distinct
objectives) scores 5.0 and 1.25. -/
theorem objectiveBreakdown_performance_mean :
    (∀ (db : DB) (input : GetDashboardDataInput),
      ∀ e ∈ (getDashboardData db input).objective_breakdown,
        e.performance_score
            = mean0 (((groupRows (·.objective) (dashboardRows db input)
                e.objective)).map (·.m.roas))
          ∧ groupRows (·.objective) (dashboardRows db input) e.objective ≠ []) ∧
    (∀ r1 r2 : DashRow, r1.objective = r2.objective →
      r1.m.roas = 5 → r2.m.roas = 5/4 →
      objectiveBreakdown [r1, r2]
        = [⟨r1.objective, r1.m.spend + r2.m.spend, 25/8⟩]) ∧
    (∀ r1 r2 : DashRow, r1.objective ≠ r2.objective →
      r1.m.roas = 5 → r2.m.roas = 5/4 →
      objectiveBreakdown [r1, r2]
        = [⟨r1.objective, r1.m.spend, 5⟩, ⟨r2.objective, r2.m.spend, 5/4⟩]) := by
  refine ⟨?_, ?_, ?_⟩
  · intro db input e he
    simp only [getDashboardData, objectiveBreakdown, List.mem_map] at he
    obtain ⟨o, ho, rfl⟩ := he
    refine ⟨rfl, ?_⟩
    simp only [groupKeys, List.mem_dedup, List.mem_map] at ho
    obtain ⟨r, hr, hro⟩ := ho
    intro hnil
    have : r ∈ groupRows (·.objective) (dashboardRows db input) r.objective := by
      simp [groupRows, hr]
    rw [hro, hnil] at this
    exact (List.not_mem_nil r) this
  · intro r1 r2 ho h1 h2
    simp only [objectiveBreakdown, groupKeys, groupRows, List.map_cons, List.map_nil]
    rw [List.dedup_cons_of_mem (by simp [ho]), List.dedup_cons_of_not_mem (by simp),
      List.dedup_nil]
    simp only [List.map_cons, List.map_nil, List.filter_cons, List.filter_nil,
      decide_eq_true_eq, ho, if_pos rfl]
    norm_num [mean0, h1, h2, ho]
  · intro r1 r2 ho h1 h2
    simp only [objectiveBreakdown, groupKeys, groupRows, List.map_cons, List.map_nil]
    rw [List.dedup_cons_of_not_mem (by simp [ho]),
      List.dedup_cons_of_not_mem (by simp), List.dedup_nil]
    simp only [List.map_cons, List.map_nil, List.filter_cons, List.filter_nil,
      decide_eq_true_eq]
    norm_num [mean0, h1, h2, ho, Ne.symm ho]

/-- A row with roas 5.0 under objective "conversion". -/
def exDashRowA : DashRow := ⟨{ exMetric 21 0 with roas := 5 }, "meta_ads", "conversion"⟩

/-- A row with roas 1.25 under objective "conversion". -/
def exDashRowB : DashRow := ⟨{ exMetric 22 0 with roas := 5/4 }, "meta_ads", "conversion"⟩

/-- A row with roas 1.25 under objective "traffic". -/
def exDashRowC : DashRow := ⟨{ exMetric 23 0 with roas := 5/4 }, "meta_ads", "traffic"⟩

/-- Witness for C2: the 3.125 shared-group score and the 5.0 / 1.25
separate-group scores on concrete rows. -/
theorem objectiveBreakdown_performance_mean_witness :
    objectiveBreakdown [exDashRowA, exDashRowB]
        = [⟨"conversion", exDashRowA.m.spend + exDashRowB.m.spend, 25/8⟩]
      ∧ objectiveBreakdown [exDashRowA, exDashRowC]
        = [⟨"conversion", exDashRowA.m.spend, 5⟩, ⟨"traffic", exDashRowC.m.spend, 5/4⟩] :=
  ⟨objectiveBreakdown_performance_mean.2.1 exDashRowA exDashRowB rfl rfl rfl,
   objectiveBreakdown_performance_mean.2.2 exDashRowA exDashRowC (by decide) rfl rfl⟩

/-- Claim C3: the platform groups partition the filtered row set exactly —
every row lies in the group of its own platform and in no other, the union
of the groups is the row set, every emitted entry carries the sums over
its group, the emitted keys are exactly the occurring platforms, and no
empty group is emitted. -/
theorem platformBreakdown_partition (db : DB) (input : GetDashboardDataInput) :
    (∀ r ∈ dashboardRows db input,
      r.platform ∈ groupKeys (·.platform) (dashboardRows db input)
        ∧ r ∈ groupRows (·.platform) (dashboardRows db input) r.platform
        ∧ ∀ k, r ∈ groupRows (·.platform) (dashboardRows db input) k →
            k = r.platform) ∧
    (∀ r : DashRow, r ∈ dashboardRows db input ↔
      ∃ k ∈ groupKeys (·.platform) (dashboardRows db input),
        r ∈ groupRows (·.platform) (dashboardRows db input) k) ∧
    (∀ k ∈ groupKeys (·.platform) (dashboardRows db input),
      groupRows (·.platform) (dashboardRows db input) k ≠ []
        ∧ ∀ r ∈ groupRows (·.platform) (dashboardRows db input) k,
            r ∈ dashboardRows db input) ∧
    (∀ e ∈ (getDashboardData db input).platform_breakdown,
      e.spend = ((groupRows (·.platform) (dashboardRows db input)
          e.platform).map (·.m.spend)).sum
        ∧ e.impressions = ((groupRows (·.platform) (dashboardRows db input)
          e.platform).map (·.m.impressions)).sum
        ∧ e.clicks = ((groupRows (·.platform) (dashboardRows db input)
          e.platform).map (·.m.clicks)).sum
        ∧ e.conversions = ((groupRows (·.platform) (dashboardRows db input)
          e.platform).map (·.m.conversions)).sum) ∧
    ((getDashboardData db input).platform_breakdown.map (·.platform)
      = groupKeys (·.platform) (dashboardRows db input)) := by
  refine ⟨?_, ?_, ?_, ?_, ?_⟩
  · intro r hr
    refine ⟨?_, ?_, ?_⟩
    · simp [groupKeys, List.mem_dedup]
      exact ⟨r, hr, rfl⟩
    · simp [groupRows, hr]
    · intro k hk
      simp only [groupRows, List.mem_filter, decide_eq_true_eq] at hk
      exact hk.2.symm
  · intro r
    constructor
    · intro hr
      exact ⟨r.platform, by simp [groupKeys, List.mem_dedup]; exact ⟨r, hr, rfl⟩,
        by simp [groupRows, hr]⟩
    · rintro ⟨k, hk, hr⟩
      exact (List.mem_filter.mp hr).1
  · intro k hk
    constructor
    · simp only [groupKeys, List.mem_dedup, List.mem_map] at hk
      obtain ⟨r, hr, hrk⟩ := hk
      intro hnil
      have : r ∈ groupRows (·.platform) (dashboardRows db input) k := by
        simp [groupRows, hr, hrk]
      rw [hnil] at this
      exact (List.not_mem_nil r) this
    · intro r hr
      exact (List.mem_filter.mp hr).1
  · intro e he
    simp only [getDashboardData, platformBreakdown, List.mem_map] at he
    obtain ⟨p, hp, rfl⟩ := he
    exact ⟨rfl, rfl, rfl, rfl⟩
  · simp [getDashboardData, platformBreakdown, List.map_map, Function.comp_def]

/-- Witness for C3: the example query's single joined row lies in the
group of its own platform, which is an emitted key. -/
theorem platformBreakdown_partition_witness :
    (⟨exMetric 11 (civilToDay 2024 1 20), "meta_ads", "conversion"⟩ : DashRow).platform
        ∈ groupKeys (·.platform) (dashboardRows exDb exDashInput)
      ∧ (⟨exMetric 11 (civilToDay 2024 1 20), "meta_ads", "conversion"⟩ : DashRow)
        ∈ groupRows (·.platform) (dashboardRows exDb exDashInput) "meta_ads" :=
  ⟨((platformBreakdown_partition exDb exDashInput).1 _ (by decide)).1,
   ((platformBreakdown_partition exDb exDashInput).1 _ (by decide)).2.1⟩

/-! ## getUserInsights (src/server/src/handlers/get_user_insights.ts) -/

/-- The order the handler requests from the store: `created_at`
descending, then `confidence_score` descending. -/
def insightLE (a b : AiInsight) : Bool :=
  decide (b.created_at < a.created_at
    ∨ (a.created_at = b.created_at ∧ b.confidence_score ≤ a.confidence_score))

/-- `getUserInsights`: the user's insights ordered by creation time then
confidence score, both descending, capped at `limit` (default 10). -/
def getUserInsights (db : DB) (userId : Int) (limit : Nat := 10) : List AiInsight :=
  ((db.insights.filter fun i =>
    decide (i.user_id = userId)).mergeSort insightLE).take limit

lemma insightLE_trans (a b c : AiInsight) :
    insightLE a b = true → insightLE b c = true → insightLE a c = true := by
  simp only [insightLE, decide_eq_true_eq]
  intro hab hbc
  rcases hab with h1 | ⟨h1, h2⟩ <;> rcases hbc with h3 | ⟨h3, h4⟩
  · exact Or.inl (h3.trans h1)
  · exact Or.inl (h3 ▸ h1)
  · exact Or.inl (h1 ▸ h3)
  · exact Or.inr ⟨h1.trans h3, h4.trans h2⟩

lemma insightLE_total (a b : AiInsight) :
    (insightLE a b || insightLE b a) = true := by
  simp only [insightLE, Bool.or_eq_true, decide_eq_true_eq]
  rcases lt_trichotomy a.created_at b.created_at with h | h | h
  · exact Or.inr (Or.inl h)
  · rcases le_total a.confidence_score b.confidence_score with hc | hc
    · exact Or.inr (Or.inr ⟨h.symm, hc⟩)
    · exact Or.inl (Or.inr ⟨h, hc⟩)
  · exact Or.inl (Or.inl h)

/-- Claim C10: `getUserInsights` returns at most `limit` insights
(defaulting to 10), all belonging to the requested user and drawn from the
store, ordered by `created_at` descending with ties broken by
`confidence_score` descending; the dashboard feed, by contrast, is capped
at 5. -/
theorem getUserInsights_spec :
    (∀ (db : DB) (uid : Int), getUserInsights db uid = getUserInsights db uid 10) ∧
    (∀ (db : DB) (uid : Int) (limit : Nat),
      (getUserInsights db uid limit).length ≤ limit) ∧
    (∀ (db : DB) (uid : Int) (limit : Nat),
      ∀ i ∈ getUserInsights db uid limit, i.user_id = uid ∧ i ∈ db.insights) ∧
    (∀ (db : DB) (uid : Int) (limit : Nat),
      (getUserInsights db uid limit).Pairwise fun a b =>
        b.created_at < a.created_at
          ∨ (a.created_at = b.created_at
              ∧ b.confidence_score ≤ a.confidence_score)) ∧
    (∀ (db : DB) (input : GetDashboardDataInput),
      (getDashboardData db input).recent_insights.length ≤ 5) := by
  refine ⟨fun db uid => rfl, ?_, ?_, ?_, ?_⟩
  · intro db uid limit
    simpa [getUserInsights] using List.length_take_le limit _
  · intro db uid limit i hi
    have h1 : i ∈ (db.insights.filter fun i =>
        decide (i.user_id = uid)).mergeSort insightLE :=
      (List.take_sublist _ _).mem hi
    have h2 : i ∈ db.insights.filter fun i => decide (i.user_id = uid) :=
      (List.mergeSort_perm _ _).mem_iff.mp h1
    have h3 := List.mem_filter.mp h2
    exact ⟨by simpa using h3.2, h3.1⟩
  · intro db uid limit
    have hs := List.sorted_mergeSort
      (fun a b c => insightLE_trans a b c) insightLE_total
      (db.insights.filter fun i => decide (i.user_id = uid))
    have hp := List.Pairwise.sublist (List.take_sublist limit _) hs
    exact hp.imp fun h => by simpa [insightLE] using h
  · intro db input
    simpa [getDashboardData, recentInsights] using
      List.length_take_le 5 _

/-- An insight row of user 7 used by the C10 witness. -/
def exInsight : AiInsight :=
  { id := 1, user_id := 7, campaign_id := none, connection_id := none
    insight_type := "key_metrics", title := "T", content := "C"
    recommendations := "R", confidence_score := 1, platform := "meta_ads"
    objective := none, created_at := 100 }

/-- The example store with one stored insight. -/
def exDbInsights : DB := { exDb with insights := [exInsight] }

/-- Witness for C10: the stored insight is returned and belongs to its
user. -/
theorem getUserInsights_spec_witness :
    exInsight.user_id = 7 ∧ exInsight ∈ exDbInsights.insights :=
  getUserInsights_spec.2.2.1 exDbInsights 7 10 exInsight
    (by simp [getUserInsights, exDbInsights, exDb, exInsight, List.filter])
